import Mathlib

/-!
VkEngine: setup-selection rules and the frame loop.

A shallow embedding of `src/VkEngine.cpp`: the surface-format picker
`pick_surface_format`, the queue-family selection, the swapchain create-info
and composite-alpha choice of `VkEngine::init_vulkan`, the frame counter of
`VkEngine::draw` and the loop of `VkEngine::run`.

Driver and windowing calls are inputs of the model: the list of reported
surface formats, the queue-family flags, the presentation-support predicate,
the surface capabilities, the result of each present call and the events
handed out by the event queue.
-/

namespace VkEngine

/-! ## Vulkan value types used by the source -/

/-- The enumeration `vk::Format`, by the numeric code of the enumerator. -/
structure Format where
  code : Nat
deriving DecidableEq, Repr

namespace Format
def eUndefined : Format := ⟨0⟩
def eR8G8B8Unorm : Format := ⟨23⟩
def eB8G8R8Unorm : Format := ⟨30⟩
def eR8G8B8A8Unorm : Format := ⟨37⟩
def eB8G8R8A8Unorm : Format := ⟨44⟩
def eA2B10G10R10UnormPack32 : Format := ⟨64⟩
def eR16G16B16A16Sfloat : Format := ⟨97⟩
end Format

/-- The enumeration `vk::ColorSpaceKHR`, by the numeric code of the enumerator. -/
structure ColorSpaceKHR where
  code : Nat
deriving DecidableEq, Repr

namespace ColorSpaceKHR
def eSrgbNonlinear : ColorSpaceKHR := ⟨0⟩
def eExtendedSrgbLinearEXT : ColorSpaceKHR := ⟨1000104002⟩
def eHdr10St2084EXT : ColorSpaceKHR := ⟨1000104008⟩
end ColorSpaceKHR

/-- The pair `vk::SurfaceFormatKHR`. -/
structure SurfaceFormatKHR where
  format : Format
  colorSpace : ColorSpaceKHR
deriving DecidableEq, Repr

/-- The ways a call of the model can end without a value. -/
inductive Fault where
  /-- `formats[0]` on an empty vector -/
  | outOfRange
  /-- the condition of an `assert` is false in a build that checks it -/
  | assertFailed
  /-- a `std::runtime_error` is thrown with this message -/
  | runtimeError (what : String)
deriving DecidableEq, Repr

/-! ## pick_surface_format (VkEngine.cpp, lines 13-47) -/

/-- The array `requested_formats` of lines 27-29. -/
def requested_formats : List Format :=
  [Format.eB8G8R8A8Unorm, Format.eR8G8B8A8Unorm, Format.eB8G8R8Unorm, Format.eR8G8B8Unorm]

/-- The local `requested_color_space` of line 30. -/
def requested_color_space : ColorSpaceKHR := ColorSpaceKHR.eSrgbNonlinear

/-- The lambda of lines 35-37. -/
def matches_request (requested_format : Format) (f : SurfaceFormatKHR) : Bool :=
  (f.format == requested_format) && (f.colorSpace == requested_color_space)

/-- The `for` loop of lines 31-43 over the remaining requested formats:
the first `find_if` hit replaces `picked` and leaves the loop. -/
def scan_requested (formats : List SurfaceFormatKHR) (picked : SurfaceFormatKHR) :
    List Format → SurfaceFormatKHR
  | [] => picked
  | requested_format :: rest =>
    match formats.find? (matches_request requested_format) with
    | some f => f
    | none => scan_requested formats picked rest

/-- The value of the local `picked_format` when control reaches line 45,
for a vector whose element 0 is `f0`. -/
def picked_format (f0 : SurfaceFormatKHR) (formats : List SurfaceFormatKHR) : SurfaceFormatKHR :=
  if formats.length = 1 then
    if f0.format = Format.eUndefined then
      { format := Format.eB8G8R8A8Unorm, colorSpace := ColorSpaceKHR.eSrgbNonlinear }
    else f0
  else
    scan_requested formats f0 requested_formats

/-- The function `pick_surface_format`. The flag `ndebug` says whether the
build defines `NDEBUG`, in which case the `assert` of line 45 is compiled out. -/
def pick_surface_format (ndebug : Bool) (formats : List SurfaceFormatKHR) :
    Except Fault SurfaceFormatKHR :=
  match formats with
  | [] => .error .outOfRange
  | f0 :: _ =>
    let picked := picked_format f0 formats
    if ndebug || picked.colorSpace == ColorSpaceKHR.eSrgbNonlinear then .ok picked
    else .error .assertFailed

/-! ## init_vulkan: queue families (VkEngine.cpp, lines 117-159) -/

/-- The conversion `static_cast<uint32_t>`. -/
def u32 (n : Nat) : Nat := n % 2 ^ 32

/-- The bit `vk::QueueFlagBits::eGraphics`. -/
def eGraphics : Nat := 1

/-- The test `qfp.queueFlags & vk::QueueFlagBits::eGraphics` on the flag word
of one queue family. -/
def has_graphics (queueFlags : Nat) : Bool := queueFlags &&& eGraphics != 0

/-- A scan from the front that stops at the first hit (`std::find_if`, or a
`for` loop with `break`): the index of the first element, counted from `i`,
on which `hit index element` holds. -/
def first_index (hit : Nat → Nat → Bool) : List Nat → Nat → Option Nat
  | [], _ => none
  | q :: rest, i => if hit i q then some i else first_index hit rest (i + 1)

/-- Lines 117-159 of `init_vulkan`: the pair `(graphics_queue_family_index,
present_queue_family_index)` that the rest of the function uses, or the
`std::runtime_error` thrown. The list holds the `queueFlags` of the queue
families; `getSurfaceSupportKHR i` is the answer of the driver for family `i`
and the surface. -/
def select_queue_families (queue_family_properties : List Nat)
    (getSurfaceSupportKHR : Nat → Bool) : Except Fault (Nat × Nat) :=
  let size := queue_family_properties.length
  -- lines 118-124
  let graphics_queue_family_index :=
    (first_index (fun _ q => has_graphics q) queue_family_properties 0).getD size
  -- lines 125-129
  if graphics_queue_family_index ≥ size then
    .error (.runtimeError "Could not find physical device supporting graphics.")
  else
    -- lines 130-132
    let present_queue_family_index :=
      if getSurfaceSupportKHR (u32 graphics_queue_family_index) then graphics_queue_family_index
      else size
    let chosen : Nat × Nat :=
      if present_queue_family_index = size then
        -- lines 136-143
        let both : Nat × Nat :=
          match first_index (fun i q => has_graphics q && getSurfaceSupportKHR (u32 i))
              queue_family_properties 0 with
          | some i => (u32 i, i)
          | none => (graphics_queue_family_index, present_queue_family_index)
        if both.2 = size then
          -- lines 147-152
          match first_index (fun i _ => getSurfaceSupportKHR (u32 i)) queue_family_properties 0 with
          | some i => (both.1, i)
          | none => both
        else both
      else (graphics_queue_family_index, present_queue_family_index)
    -- lines 155-159
    if chosen.1 = size ∨ chosen.2 = size then
      .error (.runtimeError "Could not find a queue for graphics or present")
    else .ok chosen

/-! ## init_vulkan: swapchain create-info (VkEngine.cpp, lines 167-212) -/

/-- The bits of `vk::CompositeAlphaFlagBitsKHR`. -/
structure CompositeAlphaFlagBitsKHR where
  bit : Nat
deriving DecidableEq, Repr

namespace CompositeAlphaFlagBitsKHR
def eOpaque : CompositeAlphaFlagBitsKHR := ⟨1⟩
def ePreMultiplied : CompositeAlphaFlagBitsKHR := ⟨2⟩
def ePostMultiplied : CompositeAlphaFlagBitsKHR := ⟨4⟩
def eInherit : CompositeAlphaFlagBitsKHR := ⟨8⟩
end CompositeAlphaFlagBitsKHR

/-- The bit `vk::SurfaceTransformFlagBitsKHR::eIdentity`. -/
def eIdentity : Nat := 1

/-- The enumeration `vk::SharingMode`. -/
inductive SharingMode where
  | eExclusive
  | eConcurrent
deriving DecidableEq, Repr

/-- The enumeration `vk::PresentModeKHR`, as far as the source uses it. -/
inductive PresentModeKHR where
  | eFifo
deriving DecidableEq, Repr

/-- The fields of `vk::SurfaceCapabilitiesKHR` that `init_vulkan` reads. -/
structure SurfaceCapabilitiesKHR where
  minImageCount : Nat
  supportedTransforms : Nat
  currentTransform : Nat
  supportedCompositeAlpha : Nat
deriving DecidableEq, Repr

/-- The fields of `vk::SwapchainCreateInfoKHR` that `init_vulkan` computes.
A null `pQueueFamilyIndices` is the empty list. -/
structure SwapchainCreateInfoKHR where
  minImageCount : Nat
  imageFormat : Format
  imageColorSpace : ColorSpaceKHR
  imageArrayLayers : Nat
  imageSharingMode : SharingMode
  queueFamilyIndexCount : Nat
  pQueueFamilyIndices : List Nat
  preTransform : Nat
  compositeAlpha : CompositeAlphaFlagBitsKHR
  presentMode : PresentModeKHR
  clipped : Bool
deriving DecidableEq, Repr

/-- The local `format` of line 172, for a vector whose element 0 is `f0`. -/
def swapchain_format (f0 : SurfaceFormatKHR) : Format :=
  if f0.format = Format.eUndefined then Format.eB8G8R8A8Unorm else f0.format

/-- The local `pre_transform` of lines 175-177. -/
def pre_transform (surface_capabilities : SurfaceCapabilitiesKHR) : Nat :=
  if surface_capabilities.supportedTransforms &&& eIdentity != 0 then eIdentity
  else surface_capabilities.currentTransform

/-- The local `composite_alpha` of lines 178-184, as a function of the mask
`surface_capabilities.supportedCompositeAlpha`. -/
def composite_alpha (supportedCompositeAlpha : Nat) : CompositeAlphaFlagBitsKHR :=
  if supportedCompositeAlpha &&& CompositeAlphaFlagBitsKHR.ePreMultiplied.bit != 0 then
    CompositeAlphaFlagBitsKHR.ePreMultiplied
  else if supportedCompositeAlpha &&& CompositeAlphaFlagBitsKHR.ePostMultiplied.bit != 0 then
    CompositeAlphaFlagBitsKHR.ePostMultiplied
  else if supportedCompositeAlpha &&& CompositeAlphaFlagBitsKHR.eInherit.bit != 0 then
    CompositeAlphaFlagBitsKHR.eInherit
  else CompositeAlphaFlagBitsKHR.eOpaque

/-- The structure `swap_chain_create_info` as handed to
`createSwapchainKHRUnique` on line 214 (lines 185-212). -/
def swap_chain_create_info (surface_capabilities : SurfaceCapabilitiesKHR) (format : Format)
    (graphics_queue_family_index present_queue_family_index : Nat) : SwapchainCreateInfoKHR :=
  let initial : SwapchainCreateInfoKHR :=
    { minImageCount := surface_capabilities.minImageCount
      imageFormat := format
      imageColorSpace := ColorSpaceKHR.eSrgbNonlinear
      imageArrayLayers := 1
      imageSharingMode := SharingMode.eExclusive
      queueFamilyIndexCount := 0
      pQueueFamilyIndices := []
      preTransform := pre_transform surface_capabilities
      compositeAlpha := composite_alpha surface_capabilities.supportedCompositeAlpha
      presentMode := PresentModeKHR.eFifo
      clipped := true }
  let queue_family_indices : List Nat :=
    [u32 graphics_queue_family_index, u32 present_queue_family_index]
  if graphics_queue_family_index ≠ present_queue_family_index then
    { initial with
      imageSharingMode := SharingMode.eConcurrent
      queueFamilyIndexCount := 2
      pQueueFamilyIndices := queue_family_indices }
  else initial

/-- The two formats `init_vulkan` works with, for the list of surface formats
the driver reports (the same list at lines 167 and 217). -/
structure ImageFormats where
  /-- the local `format`: `imageFormat` of the swapchain and format of every image view -/
  format : Format
  /-- the member `_swapchain_image_format`: format of the render pass colour attachment -/
  _swapchain_image_format : Format
deriving DecidableEq, Repr

/-- Lines 167-172 and 217 of `init_vulkan`. -/
def init_vulkan_formats (ndebug : Bool) (formats : List SurfaceFormatKHR) :
    Except Fault ImageFormats :=
  match formats with
  | [] => .error (.runtimeError "Surface formats are empty")
  | f0 :: _ =>
    match pick_surface_format ndebug formats with
    | .error fault => .error fault
    | .ok picked => .ok { format := swapchain_format f0, _swapchain_image_format := picked.format }

/-! ## draw and run (VkEngine.cpp, lines 269-317) -/

/-- The enumeration `vk::Result`, by the numeric code of the enumerator. -/
structure Result where
  code : Int
deriving DecidableEq, Repr

namespace Result
def eSuccess : Result := ⟨0⟩
def eNotReady : Result := ⟨1⟩
def eTimeout : Result := ⟨2⟩
def eSuboptimalKHR : Result := ⟨1000001003⟩
def eErrorDeviceLost : Result := ⟨-4⟩
def eErrorOutOfDateKHR : Result := ⟨-1000001004⟩
end Result

/-- The members of `VkEngine` that `draw` and `run` change. `_frame_number`
is a `std::size_t`, taken to be 64 bits wide. -/
structure Engine where
  _is_initialized : Bool
  _frame_number : Nat
deriving DecidableEq, Repr

/-- The engine as the constructor leaves it. -/
def Engine.constructed : Engine := { _is_initialized := true, _frame_number := 0 }

/-- The function `draw`, from the point where `presentKHR` has answered
`present_result` (lines 290-299). The driver calls before it (lines 271-289)
do not touch `_frame_number`. -/
def draw (engine : Engine) (present_result : Result) : Except Fault Engine :=
  if present_result = Result.eSuccess then
    .ok { engine with _frame_number := (engine._frame_number + 1) % 2 ^ 64 }
  else .error (.runtimeError "Problem when drawing")

/-- The draw calls of `present_results.length` frames in a row, each with
its present result; stops at the first fault. -/
def draw_frames (engine : Engine) : List Result → Except Fault Engine
  | [] => .ok engine
  | present_result :: rest =>
    match draw engine present_result with
    | .error fault => .error fault
    | .ok next => draw_frames next rest

/-- The event type `SDL_QUIT`. -/
def SDL_QUIT : Nat := 0x100

/-- The inner loop of lines 309-313 over the types of the events that
`SDL_PollEvent` hands out before it returns 0. -/
def poll_events (bQuit : Bool) : List Nat → Bool
  | [] => bQuit
  | type :: rest => poll_events (if type = SDL_QUIT then true else bQuit) rest

/-- What the outside world supplies to one iteration of the main loop. -/
structure Iteration where
  /-- types of the pending events, in queue order -/
  events : List Nat
  /-- answer of `presentKHR` in this iteration's draw call -/
  present_result : Result
deriving DecidableEq, Repr

/-- The observable steps of the main loop. -/
inductive Step where
  /-- the event queue was drained; the flag says whether a quit event was in it -/
  | drained (quit_seen : Bool)
  /-- `draw` was called -/
  | draw_called
deriving DecidableEq, Repr

/-- How a run over a finite script ends. -/
inductive RunEnd where
  /-- `bQuit` is set and `run` returns -/
  | returned
  /-- a draw call threw -/
  | fatal (fault : Fault)
  /-- the script is used up and the loop is still going -/
  | running
deriving DecidableEq, Repr

/-- The outcome of a run: final engine, steps in order, and the ending. -/
structure RunResult where
  engine : Engine
  log : List Step
  ending : RunEnd
deriving DecidableEq, Repr

/-- The `while (!bQuit)` loop of lines 307-316, entered with the given value
of `bQuit`, over a script of iterations. -/
def run_loop (engine : Engine) (bQuit : Bool) : List Iteration → RunResult
  | [] => { engine := engine, log := [], ending := if bQuit then .returned else .running }
  | iteration :: rest =>
    if bQuit then { engine := engine, log := [], ending := .returned }
    else
      let quit := poll_events bQuit iteration.events
      match draw engine iteration.present_result with
      | .error fault =>
        { engine := engine, log := [Step.drained quit, Step.draw_called], ending := .fatal fault }
      | .ok next =>
        let later := run_loop next quit rest
        { later with log := Step.drained quit :: Step.draw_called :: later.log }

/-- The function `run`: `bQuit` starts as `false`. -/
def run (engine : Engine) (script : List Iteration) : RunResult :=
  run_loop engine false script

/-- Number of draw calls in a log. -/
def draw_calls (log : List Step) : Nat := log.count Step.draw_called

/-- Number of iterations in a log in which no quit event was drained. -/
def quiet_iterations (log : List Step) : Nat := log.count (Step.drained false)

/-- Number of iterations in a log in which a quit event was drained. -/
def quit_iterations (log : List Step) : Nat := log.count (Step.drained true)

/-! ## Specification-side definitions -/

/-- The earliest entry of the priority list that occurs in `formats` paired
with the colour space `eSrgbNonlinear`. -/
def earliest_requested_format (formats : List SurfaceFormatKHR) : Option Format :=
  requested_formats.find? (fun r => formats.any (matches_request r))

/-- The first entry of `formats` whose format is `wanted`, whatever its
colour space. -/
def first_entry_with_format (wanted : Format) (formats : List SurfaceFormatKHR) :
    Option SurfaceFormatKHR :=
  formats.find? (fun f => f.format == wanted)

/-- The index `i` is the lowest one on which `holds` is true. -/
def IsLowest (holds : Nat → Bool) (i : Nat) : Prop :=
  holds i = true ∧ ∀ j, j < i → holds j = false

instance IsLowest.decidable (holds : Nat → Bool) (i : Nat) : Decidable (IsLowest holds i) := by
  unfold IsLowest
  exact inferInstance

/-- Family `i` exists and has the graphics bit. -/
def graphics_capable (queue_family_properties : List Nat) (i : Nat) : Bool :=
  match queue_family_properties[i]? with
  | some q => has_graphics q
  | none => false

/-- Family `i` exists and can present to the surface. -/
def present_capable (queue_family_properties : List Nat) (getSurfaceSupportKHR : Nat → Bool)
    (i : Nat) : Bool :=
  decide (i < queue_family_properties.length) && getSurfaceSupportKHR i

/-- The mask `supportedCompositeAlpha` with the given bits set. -/
def composite_alpha_mask (preMultiplied postMultiplied inherit opaq : Bool) : Nat :=
  (if preMultiplied then CompositeAlphaFlagBitsKHR.ePreMultiplied.bit else 0) |||
  (if postMultiplied then CompositeAlphaFlagBitsKHR.ePostMultiplied.bit else 0) |||
  (if inherit then CompositeAlphaFlagBitsKHR.eInherit.bit else 0) |||
  (if opaq then CompositeAlphaFlagBitsKHR.eOpaque.bit else 0)

/-- Rank of a composite-alpha value in the preference order of the spec
(0 is the most preferred). -/
def composite_alpha_rank (a : CompositeAlphaFlagBitsKHR) : Nat :=
  if a = CompositeAlphaFlagBitsKHR.ePreMultiplied then 0
  else if a = CompositeAlphaFlagBitsKHR.ePostMultiplied then 1
  else if a = CompositeAlphaFlagBitsKHR.eInherit then 2
  else 3

/-- The steps of one iteration that drains the queue and then draws. -/
def iteration_steps (quit_seen : Bool) : List Step :=
  [Step.drained quit_seen, Step.draw_called]

/-- The steps of `k` iterations in a row in which no quit event was drained. -/
def quiet_steps : Nat → List Step
  | 0 => []
  | k + 1 => iteration_steps false ++ quiet_steps k

/-- The increment `++_frame_number` on a 64-bit `std::size_t`. -/
def next_frame_number (n : Nat) : Nat := (n + 1) % 2 ^ 64

/-- The engine with its frame counter incremented `k` times. -/
def after_draws (k : Nat) (engine : Engine) : Engine :=
  { engine with _frame_number := next_frame_number^[k] engine._frame_number }

/-- An iteration whose event queue holds no quit event and whose present
call succeeds. -/
def Iteration.quiet (iteration : Iteration) : Prop :=
  SDL_QUIT ∉ iteration.events ∧ iteration.present_result = Result.eSuccess

/-! ## Lemmas on pick_surface_format -/

theorem matches_request_iff (r : Format) (x : SurfaceFormatKHR) :
    matches_request r x = true ↔ x.format = r ∧ x.colorSpace = ColorSpaceKHR.eSrgbNonlinear := by
  simp [matches_request, requested_color_space]

theorem scan_requested_hit (formats : List SurfaceFormatKHR) (picked : SurfaceFormatKHR)
    (rs : List Format) (h : ∃ r ∈ rs, ∃ x ∈ formats, matches_request r x = true) :
    ∃ before wanted after entry, rs = before ++ wanted :: after ∧
      (∀ r ∈ before, formats.find? (matches_request r) = none) ∧
      formats.find? (matches_request wanted) = some entry ∧
      scan_requested formats picked rs = entry := by
  induction rs with
  | nil => obtain ⟨r, hr, _⟩ := h; cases hr
  | cons r rest ih =>
    cases hfind : formats.find? (matches_request r) with
    | some entry =>
      exact ⟨[], r, rest, entry, rfl, by simp, hfind, by simp [scan_requested, hfind]⟩
    | none =>
      have hrest : ∃ r2 ∈ rest, ∃ x ∈ formats, matches_request r2 x = true := by
        obtain ⟨r2, hr2, x, hx, hm⟩ := h
        rcases List.mem_cons.mp hr2 with heq | hmem
        · subst heq
          rw [List.find?_eq_none] at hfind
          exact absurd hm (hfind x hx)
        · exact ⟨r2, hmem, x, hx, hm⟩
      obtain ⟨before, wanted, after, entry, hsplit, hnone, hsome, hscan⟩ := ih hrest
      refine ⟨r :: before, wanted, after, entry, by simp [hsplit], ?_, hsome, ?_⟩
      · intro r2 hr2
        rcases List.mem_cons.mp hr2 with heq | hmem
        · subst heq; exact hfind
        · exact hnone r2 hmem
      · simp [scan_requested, hfind, hscan]

theorem find_prefix_none {α : Type} (p : α → Bool) (before : List α) (wanted : α) (after : List α)
    (h : ∀ r ∈ before, p r = false) (hw : p wanted = true) :
    (before ++ wanted :: after).find? p = some wanted := by
  induction before with
  | nil => simp [List.find?, hw]
  | cons b rest ih =>
    have hb := h b (List.mem_cons_self b rest)
    simp only [List.cons_append, List.find?, hb]
    exact ih (fun r hr => h r (List.mem_cons_of_mem b hr))

theorem pick_surface_format_multi (ndebug : Bool) (formats : List SurfaceFormatKHR)
    (h2 : 2 ≤ formats.length) :
    ∃ f0, formats.head? = some f0 ∧
      pick_surface_format ndebug formats =
        (if ndebug || (scan_requested formats f0 requested_formats).colorSpace
            == ColorSpaceKHR.eSrgbNonlinear
         then .ok (scan_requested formats f0 requested_formats) else .error .assertFailed) := by
  cases formats with
  | nil => simp at h2
  | cons f0 rest =>
    refine ⟨f0, rfl, ?_⟩
    have hlen : (f0 :: rest).length ≠ 1 := by
      simp only [List.length_cons] at h2 ⊢
      omega
    simp only [pick_surface_format, picked_format, hlen, if_false]

/-- C1 (amended): for a list of at least two formats in which some entry
pairs a priority-list format with eSrgbNonlinear, the result is the first
entry whose format is the earliest such priority-list format AND whose colour
space is eSrgbNonlinear; the priority-list order wins over list position. -/
theorem pick_surface_format_priority_match (ndebug : Bool) (formats : List SurfaceFormatKHR)
    (h2 : 2 ≤ formats.length)
    (hm : ∃ f ∈ formats, f.colorSpace = ColorSpaceKHR.eSrgbNonlinear ∧
      f.format ∈ requested_formats) :
    ∃ wanted entry, ∃ before after : List SurfaceFormatKHR, ∃ rbefore rafter : List Format,
      earliest_requested_format formats = some wanted ∧
      requested_formats = rbefore ++ wanted :: rafter ∧
      (∀ r ∈ rbefore, ∀ x ∈ formats,
        ¬ (x.format = r ∧ x.colorSpace = ColorSpaceKHR.eSrgbNonlinear)) ∧
      formats = before ++ entry :: after ∧
      entry.format = wanted ∧ entry.colorSpace = ColorSpaceKHR.eSrgbNonlinear ∧
      (∀ x ∈ before, ¬ (x.format = wanted ∧ x.colorSpace = ColorSpaceKHR.eSrgbNonlinear)) ∧
      pick_surface_format ndebug formats = .ok entry := by
  obtain ⟨f0, _, hpick⟩ := pick_surface_format_multi ndebug formats h2
  have hex : ∃ r ∈ requested_formats, ∃ x ∈ formats, matches_request r x = true := by
    obtain ⟨f, hf, hcs, hfmt⟩ := hm
    exact ⟨f.format, hfmt, f, hf, (matches_request_iff _ _).mpr ⟨rfl, hcs⟩⟩
  obtain ⟨rbefore, wanted, rafter, entry, hsplit, hnone, hsome, hscan⟩ :=
    scan_requested_hit formats f0 requested_formats hex
  obtain ⟨hentry, before, after, hfsplit, hbefore⟩ := List.find?_eq_some.mp hsome
  have hentry2 := (matches_request_iff _ _).mp hentry
  have hnone2 : ∀ r ∈ rbefore, ∀ x ∈ formats,
      ¬ (x.format = r ∧ x.colorSpace = ColorSpaceKHR.eSrgbNonlinear) := by
    intro r hr x hx hboth
    have := hnone r hr
    rw [List.find?_eq_none] at this
    exact this x hx ((matches_request_iff _ _).mpr hboth)
  refine ⟨wanted, entry, before, after, rbefore, rafter, ?_, hsplit, hnone2, hfsplit,
    hentry2.1, hentry2.2, ?_, ?_⟩
  · unfold earliest_requested_format
    rw [hsplit]
    apply find_prefix_none
    · intro r hr
      rw [Bool.eq_false_iff]
      intro hany
      obtain ⟨x, hx, hmx⟩ := List.any_eq_true.mp hany
      exact hnone2 r hr x hx ((matches_request_iff _ _).mp hmx)
    · exact List.any_eq_true.mpr ⟨entry, by rw [hfsplit]; simp, hentry⟩
  · intro x hx hboth
    have := hbefore x hx
    rw [(matches_request_iff _ _).mpr hboth] at this
    simp at this
  · rw [hpick, hscan, hentry2.2]
    simp

/-- C1 (witness): on the list of the claim's example, with the lower-priority
format listed first, the entry with eB8G8R8A8Unorm is returned. -/
theorem pick_surface_format_priority_match_witness :
    ∃ wanted entry, ∃ before after : List SurfaceFormatKHR, ∃ rbefore rafter : List Format,
      earliest_requested_format
        [⟨Format.eR8G8B8A8Unorm, ColorSpaceKHR.eSrgbNonlinear⟩,
         ⟨Format.eB8G8R8A8Unorm, ColorSpaceKHR.eSrgbNonlinear⟩] = some wanted ∧
      requested_formats = rbefore ++ wanted :: rafter ∧
      (∀ r ∈ rbefore, ∀ x ∈ [(⟨Format.eR8G8B8A8Unorm, ColorSpaceKHR.eSrgbNonlinear⟩ : SurfaceFormatKHR),
         ⟨Format.eB8G8R8A8Unorm, ColorSpaceKHR.eSrgbNonlinear⟩],
        ¬ (x.format = r ∧ x.colorSpace = ColorSpaceKHR.eSrgbNonlinear)) ∧
      [(⟨Format.eR8G8B8A8Unorm, ColorSpaceKHR.eSrgbNonlinear⟩ : SurfaceFormatKHR),
         ⟨Format.eB8G8R8A8Unorm, ColorSpaceKHR.eSrgbNonlinear⟩] = before ++ entry :: after ∧
      entry.format = wanted ∧ entry.colorSpace = ColorSpaceKHR.eSrgbNonlinear ∧
      (∀ x ∈ before, ¬ (x.format = wanted ∧ x.colorSpace = ColorSpaceKHR.eSrgbNonlinear)) ∧
      pick_surface_format false
        [⟨Format.eR8G8B8A8Unorm, ColorSpaceKHR.eSrgbNonlinear⟩,
         ⟨Format.eB8G8R8A8Unorm, ColorSpaceKHR.eSrgbNonlinear⟩] = .ok entry :=
  pick_surface_format_priority_match false
    [⟨Format.eR8G8B8A8Unorm, ColorSpaceKHR.eSrgbNonlinear⟩,
     ⟨Format.eB8G8R8A8Unorm, ColorSpaceKHR.eSrgbNonlinear⟩]
    (by decide)
    ⟨⟨Format.eR8G8B8A8Unorm, ColorSpaceKHR.eSrgbNonlinear⟩, by decide, rfl, by decide⟩

/-- C1 (counterexample): in the list [eB8G8R8A8Unorm/eExtendedSrgbLinearEXT,
eB8G8R8A8Unorm/eSrgbNonlinear] the earliest priority-list format paired with
eSrgbNonlinear is eB8G8R8A8Unorm and the first entry with that format is
entry 0, yet the function returns entry 1. -/
theorem pick_surface_format_first_with_format_counterexample :
    2 ≤ [(⟨Format.eB8G8R8A8Unorm, ColorSpaceKHR.eExtendedSrgbLinearEXT⟩ : SurfaceFormatKHR),
      ⟨Format.eB8G8R8A8Unorm, ColorSpaceKHR.eSrgbNonlinear⟩].length ∧
    earliest_requested_format
      [⟨Format.eB8G8R8A8Unorm, ColorSpaceKHR.eExtendedSrgbLinearEXT⟩,
       ⟨Format.eB8G8R8A8Unorm, ColorSpaceKHR.eSrgbNonlinear⟩] = some Format.eB8G8R8A8Unorm ∧
    first_entry_with_format Format.eB8G8R8A8Unorm
      [⟨Format.eB8G8R8A8Unorm, ColorSpaceKHR.eExtendedSrgbLinearEXT⟩,
       ⟨Format.eB8G8R8A8Unorm, ColorSpaceKHR.eSrgbNonlinear⟩]
      = some ⟨Format.eB8G8R8A8Unorm, ColorSpaceKHR.eExtendedSrgbLinearEXT⟩ ∧
    pick_surface_format false
      [⟨Format.eB8G8R8A8Unorm, ColorSpaceKHR.eExtendedSrgbLinearEXT⟩,
       ⟨Format.eB8G8R8A8Unorm, ColorSpaceKHR.eSrgbNonlinear⟩]
      = .ok ⟨Format.eB8G8R8A8Unorm, ColorSpaceKHR.eSrgbNonlinear⟩ ∧
    pick_surface_format true
      [⟨Format.eB8G8R8A8Unorm, ColorSpaceKHR.eExtendedSrgbLinearEXT⟩,
       ⟨Format.eB8G8R8A8Unorm, ColorSpaceKHR.eSrgbNonlinear⟩]
      = .ok ⟨Format.eB8G8R8A8Unorm, ColorSpaceKHR.eSrgbNonlinear⟩ ∧
    (⟨Format.eB8G8R8A8Unorm, ColorSpaceKHR.eSrgbNonlinear⟩ : SurfaceFormatKHR)
      ≠ ⟨Format.eB8G8R8A8Unorm, ColorSpaceKHR.eExtendedSrgbLinearEXT⟩ :=
  ⟨by decide, by decide, by decide, rfl, rfl, by decide⟩

/-- C2 (failing input): for the one-element list
[eR8G8B8A8Unorm/eExtendedSrgbLinearEXT], whose format is not eUndefined, the
value that reaches line 45 is the entry itself, as the claim says, but the
assert of that line fails, so a build that checks it aborts instead of
returning the entry. -/
theorem pick_surface_format_single_assert_fails :
    (⟨Format.eR8G8B8A8Unorm, ColorSpaceKHR.eExtendedSrgbLinearEXT⟩ : SurfaceFormatKHR).format
      ≠ Format.eUndefined ∧
    picked_format ⟨Format.eR8G8B8A8Unorm, ColorSpaceKHR.eExtendedSrgbLinearEXT⟩
        [⟨Format.eR8G8B8A8Unorm, ColorSpaceKHR.eExtendedSrgbLinearEXT⟩]
      = ⟨Format.eR8G8B8A8Unorm, ColorSpaceKHR.eExtendedSrgbLinearEXT⟩ ∧
    pick_surface_format false [⟨Format.eR8G8B8A8Unorm, ColorSpaceKHR.eExtendedSrgbLinearEXT⟩]
      = .error Fault.assertFailed ∧
    pick_surface_format false [⟨Format.eR8G8B8A8Unorm, ColorSpaceKHR.eExtendedSrgbLinearEXT⟩]
      ≠ .ok ⟨Format.eR8G8B8A8Unorm, ColorSpaceKHR.eExtendedSrgbLinearEXT⟩ :=
  ⟨by decide, by decide, rfl, by intro h; cases h⟩

/-- C3 (failing input): the two-element list
[eA2B10G10R10UnormPack32/eHdr10St2084EXT, eR16G16B16A16Sfloat/eExtendedSrgbLinearEXT]
has no priority match and the value that reaches line 45 is its first entry,
as the claim says, but the assert of that line fails, so a build that checks
it aborts instead of returning the first entry. -/
theorem pick_surface_format_no_match_assert_fails :
    2 ≤ [(⟨Format.eA2B10G10R10UnormPack32, ColorSpaceKHR.eHdr10St2084EXT⟩ : SurfaceFormatKHR),
      ⟨Format.eR16G16B16A16Sfloat, ColorSpaceKHR.eExtendedSrgbLinearEXT⟩].length ∧
    (∀ x ∈ [(⟨Format.eA2B10G10R10UnormPack32, ColorSpaceKHR.eHdr10St2084EXT⟩ : SurfaceFormatKHR),
      ⟨Format.eR16G16B16A16Sfloat, ColorSpaceKHR.eExtendedSrgbLinearEXT⟩],
      ∀ r ∈ requested_formats,
        ¬ (x.format = r ∧ x.colorSpace = ColorSpaceKHR.eSrgbNonlinear)) ∧
    picked_format ⟨Format.eA2B10G10R10UnormPack32, ColorSpaceKHR.eHdr10St2084EXT⟩
        [⟨Format.eA2B10G10R10UnormPack32, ColorSpaceKHR.eHdr10St2084EXT⟩,
         ⟨Format.eR16G16B16A16Sfloat, ColorSpaceKHR.eExtendedSrgbLinearEXT⟩]
      = ⟨Format.eA2B10G10R10UnormPack32, ColorSpaceKHR.eHdr10St2084EXT⟩ ∧
    pick_surface_format false
      [⟨Format.eA2B10G10R10UnormPack32, ColorSpaceKHR.eHdr10St2084EXT⟩,
       ⟨Format.eR16G16B16A16Sfloat, ColorSpaceKHR.eExtendedSrgbLinearEXT⟩]
      = .error Fault.assertFailed ∧
    pick_surface_format false
      [⟨Format.eA2B10G10R10UnormPack32, ColorSpaceKHR.eHdr10St2084EXT⟩,
       ⟨Format.eR16G16B16A16Sfloat, ColorSpaceKHR.eExtendedSrgbLinearEXT⟩]
      ≠ .ok ⟨Format.eA2B10G10R10UnormPack32, ColorSpaceKHR.eHdr10St2084EXT⟩ :=
  ⟨by decide, by decide, by decide, rfl, by intro h; cases h⟩

/-- C9 (failing inputs): the value about to be returned does not have colour
space eSrgbNonlinear, and the assert of line 45 fails, for the one-element
list [eB8G8R8Unorm/eHdr10St2084EXT] and for the two-element list
[eR16G16B16A16Sfloat/eExtendedSrgbLinearEXT, eB8G8R8A8Unorm/eHdr10St2084EXT]
without a priority match. -/
theorem pick_surface_format_assert_fails :
    (picked_format ⟨Format.eB8G8R8Unorm, ColorSpaceKHR.eHdr10St2084EXT⟩
        [⟨Format.eB8G8R8Unorm, ColorSpaceKHR.eHdr10St2084EXT⟩]).colorSpace
      ≠ ColorSpaceKHR.eSrgbNonlinear ∧
    pick_surface_format false [⟨Format.eB8G8R8Unorm, ColorSpaceKHR.eHdr10St2084EXT⟩]
      = .error Fault.assertFailed ∧
    (picked_format ⟨Format.eR16G16B16A16Sfloat, ColorSpaceKHR.eExtendedSrgbLinearEXT⟩
        [⟨Format.eR16G16B16A16Sfloat, ColorSpaceKHR.eExtendedSrgbLinearEXT⟩,
         ⟨Format.eB8G8R8A8Unorm, ColorSpaceKHR.eHdr10St2084EXT⟩]).colorSpace
      ≠ ColorSpaceKHR.eSrgbNonlinear ∧
    pick_surface_format false
      [⟨Format.eR16G16B16A16Sfloat, ColorSpaceKHR.eExtendedSrgbLinearEXT⟩,
       ⟨Format.eB8G8R8A8Unorm, ColorSpaceKHR.eHdr10St2084EXT⟩]
      = .error Fault.assertFailed :=
  ⟨by decide, rfl, by decide, rfl⟩

/-- C10 (failing input): for the list [eR8G8B8A8Unorm/eSrgbNonlinear,
eB8G8R8A8Unorm/eSrgbNonlinear] the swapchain and its image views get format
eR8G8B8A8Unorm while `_swapchain_image_format`, used by the render pass, is
eB8G8R8A8Unorm, in every build. -/
theorem init_vulkan_formats_differ :
    init_vulkan_formats false
      [⟨Format.eR8G8B8A8Unorm, ColorSpaceKHR.eSrgbNonlinear⟩,
       ⟨Format.eB8G8R8A8Unorm, ColorSpaceKHR.eSrgbNonlinear⟩]
      = .ok ⟨Format.eR8G8B8A8Unorm, Format.eB8G8R8A8Unorm⟩ ∧
    init_vulkan_formats true
      [⟨Format.eR8G8B8A8Unorm, ColorSpaceKHR.eSrgbNonlinear⟩,
       ⟨Format.eB8G8R8A8Unorm, ColorSpaceKHR.eSrgbNonlinear⟩]
      = .ok ⟨Format.eR8G8B8A8Unorm, Format.eB8G8R8A8Unorm⟩ ∧
    Format.eR8G8B8A8Unorm ≠ Format.eB8G8R8A8Unorm :=
  ⟨rfl, rfl, by decide⟩

/-! ## Lemmas on the queue-family scans -/

theorem first_index_none_iff (hit : Nat → Nat → Bool) (l : List Nat) (i : Nat) :
    first_index hit l i = none ↔ ∀ k q, l[k]? = some q → hit (i + k) q = false := by
  induction l generalizing i with
  | nil => simp [first_index]
  | cons a rest ih =>
    simp only [first_index]
    constructor
    · intro h k q hk
      by_cases hia : hit i a = true
      · simp [hia] at h
      · simp only [hia] at h
        cases k with
        | zero =>
          simp at hk
          subst hk
          simpa using hia
        | succ k =>
          simp at hk
          have := (ih (i + 1)).mp h k q hk
          rwa [show i + (k + 1) = i + 1 + k by omega]
    · intro h
      have h0 := h 0 a (by simp)
      simp only [Nat.add_zero] at h0
      simp only [h0]
      apply (ih (i + 1)).mpr
      intro k q hk
      have := h (k + 1) q (by simpa using hk)
      rwa [show i + (k + 1) = i + 1 + k by omega] at this

theorem first_index_some_iff (hit : Nat → Nat → Bool) (l : List Nat) (i j : Nat) :
    first_index hit l i = some j ↔
      ∃ k q, j = i + k ∧ l[k]? = some q ∧ hit (i + k) q = true ∧
        ∀ k2 q2, k2 < k → l[k2]? = some q2 → hit (i + k2) q2 = false := by
  induction l generalizing i with
  | nil => simp [first_index]
  | cons a rest ih =>
    simp only [first_index]
    by_cases hia : hit i a = true
    · simp only [hia, if_true]
      constructor
      · intro h
        cases h
        exact ⟨0, a, rfl, by simp, by simpa using hia, by intro k2 q2 hk2; omega⟩
      · rintro ⟨k, q, hj, hk, hhit, hearlier⟩
        cases k with
        | zero => simp [hj]
        | succ k =>
          have := hearlier 0 a (by omega) (by simp)
          simp only [Nat.add_zero] at this
          rw [this] at hia
          cases hia
    · have hia2 : hit i a = false := by simpa using hia
      simp only [hia2, Bool.false_eq_true, if_false]
      rw [ih (i + 1)]
      constructor
      · rintro ⟨k, q, hj, hk, hhit, hearlier⟩
        refine ⟨k + 1, q, by omega, by simpa using hk, ?_, ?_⟩
        · rwa [show i + (k + 1) = i + 1 + k by omega]
        · intro k2 q2 hlt hk2
          cases k2 with
          | zero =>
            simp at hk2
            subst hk2
            simpa using hia2
          | succ k2 =>
            simp at hk2
            have := hearlier k2 q2 (by omega) hk2
            rwa [show i + (k2 + 1) = i + 1 + k2 by omega]
      · rintro ⟨k, q, hj, hk, hhit, hearlier⟩
        cases k with
        | zero =>
          simp at hk
          subst hk
          simp only [Nat.add_zero] at hhit
          rw [hhit] at hia2
          cases hia2
        | succ k =>
          refine ⟨k, q, by omega, by simpa using hk, ?_, ?_⟩
          · rwa [show i + (k + 1) = i + 1 + k by omega] at hhit
          · intro k2 q2 hlt hk2
            have := hearlier (k2 + 1) q2 (by omega) (by simpa using hk2)
            rwa [show i + (k2 + 1) = i + 1 + k2 by omega] at this

theorem first_index_lowest (hit : Nat → Nat → Bool) (holds : Nat → Bool) (l : List Nat)
    (hagree : ∀ k q, l[k]? = some q → hit k q = holds k)
    (hout : ∀ k, l.length ≤ k → holds k = false) :
    (∀ j, first_index hit l 0 = some j ↔ IsLowest holds j) ∧
    (first_index hit l 0 = none ↔ ∀ i, holds i = false) := by
  constructor
  · intro j
    rw [first_index_some_iff]
    constructor
    · rintro ⟨k, q, hj, hk, hhit, hearlier⟩
      simp only [Nat.zero_add] at hj hhit hearlier
      subst hj
      refine ⟨by rw [← hagree j q hk]; exact hhit, ?_⟩
      intro j2 hlt
      by_cases hin : j2 < l.length
      · have hq2 : l[j2]? = some l[j2] := List.getElem?_eq_getElem hin
        rw [← hagree j2 _ hq2]
        exact hearlier j2 _ hlt hq2
      · exact hout j2 (by omega)
    · rintro ⟨htrue, hlow⟩
      have hin : j < l.length := by
        by_contra hge
        rw [hout j (by omega)] at htrue
        cases htrue
      have hq : l[j]? = some l[j] := List.getElem?_eq_getElem hin
      refine ⟨j, l[j], by omega, hq, ?_, ?_⟩
      · simp only [Nat.zero_add]
        rw [hagree j _ hq]
        exact htrue
      · intro k2 q2 hlt hk2
        simp only [Nat.zero_add]
        rw [hagree k2 q2 hk2]
        exact hlow k2 hlt
  · rw [first_index_none_iff]
    constructor
    · intro h i
      by_cases hin : i < l.length
      · have hq : l[i]? = some l[i] := List.getElem?_eq_getElem hin
        rw [← hagree i _ hq]
        simpa using h i _ hq
      · exact hout i (by omega)
    · intro h k q hk
      simp only [Nat.zero_add]
      rw [hagree k q hk]
      exact h k

theorem select_no_graphics (qfp : List Nat) (sup : Nat → Bool)
    (hG : first_index (fun _ q => has_graphics q) qfp 0 = none) :
    select_queue_families qfp sup =
      .error (.runtimeError "Could not find physical device supporting graphics.") := by
  simp [select_queue_families, hG]

theorem select_same (qfp : List Nat) (sup : Nat → Bool) (g0 : Nat)
    (hG : first_index (fun _ q => has_graphics q) qfp 0 = some g0) (hg0 : g0 < qfp.length)
    (hs : sup (u32 g0) = true) :
    select_queue_families qfp sup = .ok (g0, g0) := by
  have h1 : ¬ qfp.length ≤ g0 := by omega
  have h2 : ¬ g0 = qfp.length := by omega
  simp [select_queue_families, hG, hs, h1, h2]

theorem select_both (qfp : List Nat) (sup : Nat → Bool) (g0 b : Nat)
    (hG : first_index (fun _ q => has_graphics q) qfp 0 = some g0) (hg0 : g0 < qfp.length)
    (hs : sup (u32 g0) = false)
    (hB : first_index (fun i q => has_graphics q && sup (u32 i)) qfp 0 = some b)
    (hb : b < qfp.length) (hub : u32 b = b) :
    select_queue_families qfp sup = .ok (b, b) := by
  have h1 : ¬ qfp.length ≤ g0 := by omega
  have h2 : ¬ b = qfp.length := by omega
  simp [select_queue_families, hG, hs, h1, h2, hB, hub]

theorem select_separate (qfp : List Nat) (sup : Nat → Bool) (g0 p0 : Nat)
    (hG : first_index (fun _ q => has_graphics q) qfp 0 = some g0) (hg0 : g0 < qfp.length)
    (hs : sup (u32 g0) = false)
    (hB : first_index (fun i q => has_graphics q && sup (u32 i)) qfp 0 = none)
    (hP : first_index (fun i _ => sup (u32 i)) qfp 0 = some p0) (hp0 : p0 < qfp.length) :
    select_queue_families qfp sup = .ok (g0, p0) := by
  have h1 : ¬ qfp.length ≤ g0 := by omega
  have h2 : ¬ g0 = qfp.length := by omega
  have h3 : ¬ p0 = qfp.length := by omega
  simp [select_queue_families, hG, hs, h1, h2, h3, hB, hP]

theorem select_no_present (qfp : List Nat) (sup : Nat → Bool) (g0 : Nat)
    (hG : first_index (fun _ q => has_graphics q) qfp 0 = some g0) (hg0 : g0 < qfp.length)
    (hs : sup (u32 g0) = false)
    (hB : first_index (fun i q => has_graphics q && sup (u32 i)) qfp 0 = none)
    (hP : first_index (fun i _ => sup (u32 i)) qfp 0 = none) :
    select_queue_families qfp sup =
      .error (.runtimeError "Could not find a queue for graphics or present") := by
  have h1 : ¬ qfp.length ≤ g0 := by omega
  simp [select_queue_families, hG, hs, h1, hB, hP]

theorem u32_of_lt (n bound : Nat) (hb : bound < 2 ^ 32) (h : n < bound) : u32 n = n :=
  Nat.mod_eq_of_lt (by omega)

theorem graphics_scan_lowest (qfp : List Nat) :
    (∀ j, first_index (fun _ q => has_graphics q) qfp 0 = some j ↔
      IsLowest (graphics_capable qfp) j) ∧
    (first_index (fun _ q => has_graphics q) qfp 0 = none ↔
      ∀ i, graphics_capable qfp i = false) := by
  apply first_index_lowest
  · intro k q hk
    simp [graphics_capable, hk]
  · intro k hk
    simp [graphics_capable, List.getElem?_eq_none hk]

theorem both_scan_lowest (qfp : List Nat) (sup : Nat → Bool) (hlen : qfp.length < 2 ^ 32) :
    (∀ j, first_index (fun i q => has_graphics q && sup (u32 i)) qfp 0 = some j ↔
      IsLowest (fun i => graphics_capable qfp i && present_capable qfp sup i) j) ∧
    (first_index (fun i q => has_graphics q && sup (u32 i)) qfp 0 = none ↔
      ∀ i, (graphics_capable qfp i && present_capable qfp sup i) = false) := by
  apply first_index_lowest
  · intro k q hk
    have hin : k < qfp.length := (List.getElem?_eq_some.mp hk).1
    simp [graphics_capable, present_capable, hk, hin, u32_of_lt k _ hlen hin]
  · intro k hk
    simp [graphics_capable, List.getElem?_eq_none hk]

theorem present_scan_lowest (qfp : List Nat) (sup : Nat → Bool) (hlen : qfp.length < 2 ^ 32) :
    (∀ j, first_index (fun i _ => sup (u32 i)) qfp 0 = some j ↔
      IsLowest (present_capable qfp sup) j) ∧
    (first_index (fun i _ => sup (u32 i)) qfp 0 = none ↔
      ∀ i, present_capable qfp sup i = false) := by
  apply first_index_lowest
  · intro k q hk
    have hin : k < qfp.length := (List.getElem?_eq_some.mp hk).1
    simp [present_capable, hin, u32_of_lt k _ hlen hin]
  · intro k hk
    have : ¬ k < qfp.length := by omega
    simp [present_capable, this]

theorem graphics_capable_lt (qfp : List Nat) (i : Nat) (h : graphics_capable qfp i = true) :
    i < qfp.length := by
  by_contra hge
  simp [graphics_capable, List.getElem?_eq_none (Nat.le_of_not_lt hge)] at h

theorem present_capable_lt (qfp : List Nat) (sup : Nat → Bool) (i : Nat)
    (h : present_capable qfp sup i = true) : i < qfp.length ∧ sup i = true := by
  simpa [present_capable] using h

/-- C4: queue family selection for at most 2^32 - 1 families (the family
count is a uint32_t). The selection throws exactly when no family is
graphics-capable or no family can present. Otherwise, with g0 the first
graphics-capable family: if g0 can present, both indices are g0; else, if
some family is graphics-capable and can present, both indices are the lowest
such family; else the graphics index is g0 and the present index is the
lowest family that can present. -/
theorem select_queue_families_spec (qfp : List Nat) (sup : Nat → Bool)
    (hlen : qfp.length < 2 ^ 32) :
    ((∃ fault, select_queue_families qfp sup = .error fault) ↔
      ((∀ i, graphics_capable qfp i = false) ∨ (∀ i, present_capable qfp sup i = false))) ∧
    (∀ g0, IsLowest (graphics_capable qfp) g0 →
      (sup g0 = true → select_queue_families qfp sup = .ok (g0, g0)) ∧
      (sup g0 = false →
        ∀ b, IsLowest (fun i => graphics_capable qfp i && present_capable qfp sup i) b →
          select_queue_families qfp sup = .ok (b, b)) ∧
      (sup g0 = false →
        (∀ i, (graphics_capable qfp i && present_capable qfp sup i) = false) →
        ∀ p0, IsLowest (present_capable qfp sup) p0 →
          select_queue_families qfp sup = .ok (g0, p0))) := by
  obtain ⟨hGs, hGn⟩ := graphics_scan_lowest qfp
  obtain ⟨hBs, hBn⟩ := both_scan_lowest qfp sup hlen
  obtain ⟨hPs, hPn⟩ := present_scan_lowest qfp sup hlen
  constructor
  · cases hG : first_index (fun _ q => has_graphics q) qfp 0 with
    | none =>
      rw [select_no_graphics qfp sup hG]
      exact ⟨fun _ => Or.inl (hGn.mp hG), fun _ => ⟨_, rfl⟩⟩
    | some g0 =>
      have hlow := (hGs g0).mp hG
      have hg0 := graphics_capable_lt qfp g0 hlow.1
      have hug := u32_of_lt g0 _ hlen hg0
      have hnoG : ¬ ∀ i, graphics_capable qfp i = false := by
        intro h
        have h1 := hlow.1
        rw [h g0] at h1
        cases h1
      cases hs : sup g0 with
      | true =>
        rw [select_same qfp sup g0 hG hg0 (by rw [hug]; exact hs)]
        constructor
        · rintro ⟨fault, hf⟩
          cases hf
        · rintro (h | h)
          · exact absurd h hnoG
          · have := h g0
            simp [present_capable, hg0, hs] at this
      | false =>
        have hs2 : sup (u32 g0) = false := by rw [hug]; exact hs
        cases hB : first_index (fun i q => has_graphics q && sup (u32 i)) qfp 0 with
        | some b =>
          have hblow := (hBs b).mp hB
          have hb1 : graphics_capable qfp b = true ∧ present_capable qfp sup b = true := by
            simpa using hblow.1
          have hb := graphics_capable_lt qfp b hb1.1
          rw [select_both qfp sup g0 b hG hg0 hs2 hB hb (u32_of_lt b _ hlen hb)]
          constructor
          · rintro ⟨fault, hf⟩
            cases hf
          · rintro (h | h)
            · exact absurd h hnoG
            · rw [h b] at hb1
              cases hb1.2
        | none =>
          cases hP : first_index (fun i _ => sup (u32 i)) qfp 0 with
          | some p0 =>
            have hplow := (hPs p0).mp hP
            have hp0 := (present_capable_lt qfp sup p0 hplow.1).1
            rw [select_separate qfp sup g0 p0 hG hg0 hs2 hB hP hp0]
            constructor
            · rintro ⟨fault, hf⟩
              cases hf
            · rintro (h | h)
              · exact absurd h hnoG
              · have h1 := hplow.1
                rw [h p0] at h1
                cases h1
          | none =>
            rw [select_no_present qfp sup g0 hG hg0 hs2 hB hP]
            exact ⟨fun _ => Or.inr (hPn.mp hP), fun _ => ⟨_, rfl⟩⟩
  · intro g0 hlow
    have hG := (hGs g0).mpr hlow
    have hg0 := graphics_capable_lt qfp g0 hlow.1
    have hug := u32_of_lt g0 _ hlen hg0
    refine ⟨?_, ?_, ?_⟩
    · intro hs
      exact select_same qfp sup g0 hG hg0 (by rw [hug]; exact hs)
    · intro hs b hblow
      have hB := (hBs b).mpr hblow
      have hb1 : graphics_capable qfp b = true ∧ present_capable qfp sup b = true := by
        simpa using hblow.1
      have hb := graphics_capable_lt qfp b hb1.1
      exact select_both qfp sup g0 b hG hg0 (by rw [hug]; exact hs) hB hb
        (u32_of_lt b _ hlen hb)
    · intro hs hnone p0 hplow
      have hB := hBn.mpr hnone
      have hP := (hPs p0).mpr hplow
      have hp0 := (present_capable_lt qfp sup p0 hplow.1).1
      exact select_separate qfp sup g0 p0 hG hg0 (by rw [hug]; exact hs) hB hP hp0

/-- C4 (witness): three families, graphics on families 1 and 2, presentation
only on family 2: the first graphics family cannot present, so both indices
are 2, the lowest family with both capabilities. -/
theorem select_queue_families_spec_witness :
    [2, 1, 1].length < 2 ^ 32 ∧
    select_queue_families [2, 1, 1] (fun i => i == 2) = .ok (2, 2) :=
  ⟨by decide,
   ((select_queue_families_spec [2, 1, 1] (fun i => i == 2) (by decide)).2 1
      (by decide)).2.1 (by decide) 2 (by decide)⟩

/-! ## Swapchain create-info -/

/-- C5: for graphics and present family indices that fit a uint32_t, the
create-info has sharing mode eConcurrent with index count 2 and the listed
indices [graphics, present] if and only if the two indices differ; when they
are equal the mode is eExclusive, the count 0 and no index is listed. -/
theorem swap_chain_create_info_sharing (caps : SurfaceCapabilitiesKHR) (format : Format)
    (g p : Nat) (hg : g < 2 ^ 32) (hp : p < 2 ^ 32) :
    (((swap_chain_create_info caps format g p).imageSharingMode = SharingMode.eConcurrent ∧
      (swap_chain_create_info caps format g p).queueFamilyIndexCount = 2 ∧
      (swap_chain_create_info caps format g p).pQueueFamilyIndices = [g, p]) ↔ g ≠ p) ∧
    (g = p →
      (swap_chain_create_info caps format g p).imageSharingMode = SharingMode.eExclusive ∧
      (swap_chain_create_info caps format g p).queueFamilyIndexCount = 0 ∧
      (swap_chain_create_info caps format g p).pQueueFamilyIndices = []) := by
  have hug : u32 g = g := Nat.mod_eq_of_lt hg
  have hup : u32 p = p := Nat.mod_eq_of_lt hp
  by_cases h : g = p
  · subst h
    simp [swap_chain_create_info]
  · simp [swap_chain_create_info, h, hug, hup]

/-- C5 (witness): with graphics family 0 and present family 1 the swapchain
is shared concurrently between the two listed families; with both on family 0
it is exclusive. -/
theorem swap_chain_create_info_sharing_witness :
    (0 : Nat) < 2 ^ 32 ∧ (1 : Nat) < 2 ^ 32 ∧
    ((swap_chain_create_info ⟨2, 1, 1, 1⟩ Format.eB8G8R8A8Unorm 0 1).imageSharingMode
        = SharingMode.eConcurrent ∧
      (swap_chain_create_info ⟨2, 1, 1, 1⟩ Format.eB8G8R8A8Unorm 0 1).queueFamilyIndexCount = 2 ∧
      (swap_chain_create_info ⟨2, 1, 1, 1⟩ Format.eB8G8R8A8Unorm 0 1).pQueueFamilyIndices
        = [0, 1]) ∧
    ((swap_chain_create_info ⟨2, 1, 1, 1⟩ Format.eB8G8R8A8Unorm 0 0).imageSharingMode
        = SharingMode.eExclusive ∧
      (swap_chain_create_info ⟨2, 1, 1, 1⟩ Format.eB8G8R8A8Unorm 0 0).queueFamilyIndexCount = 0 ∧
      (swap_chain_create_info ⟨2, 1, 1, 1⟩ Format.eB8G8R8A8Unorm 0 0).pQueueFamilyIndices
        = []) :=
  ⟨by decide, by decide,
   (swap_chain_create_info_sharing ⟨2, 1, 1, 1⟩ Format.eB8G8R8A8Unorm 0 1
      (by decide) (by decide)).1.mpr (by decide),
   (swap_chain_create_info_sharing ⟨2, 1, 1, 1⟩ Format.eB8G8R8A8Unorm 0 0
      (by decide) (by decide)).2 rfl⟩

/-- C6: for each of the 16 masks of supported composite-alpha bits the
selected value is ePreMultiplied if that bit is set, else ePostMultiplied if
set, else eInherit if set, else eOpaque; for a non-empty mask the selected
value is supported and no supported value is preferred to it. -/
theorem composite_alpha_priority (preMultiplied postMultiplied inherit opaq : Bool) :
    composite_alpha (composite_alpha_mask preMultiplied postMultiplied inherit opaq) =
      (if preMultiplied then CompositeAlphaFlagBitsKHR.ePreMultiplied
       else if postMultiplied then CompositeAlphaFlagBitsKHR.ePostMultiplied
       else if inherit then CompositeAlphaFlagBitsKHR.eInherit
       else CompositeAlphaFlagBitsKHR.eOpaque) ∧
    (composite_alpha_mask preMultiplied postMultiplied inherit opaq ≠ 0 →
      composite_alpha_mask preMultiplied postMultiplied inherit opaq &&&
        (composite_alpha
          (composite_alpha_mask preMultiplied postMultiplied inherit opaq)).bit ≠ 0 ∧
      ∀ a ∈ [CompositeAlphaFlagBitsKHR.ePreMultiplied, CompositeAlphaFlagBitsKHR.ePostMultiplied,
          CompositeAlphaFlagBitsKHR.eInherit, CompositeAlphaFlagBitsKHR.eOpaque],
        composite_alpha_mask preMultiplied postMultiplied inherit opaq &&& a.bit ≠ 0 →
        composite_alpha_rank
            (composite_alpha (composite_alpha_mask preMultiplied postMultiplied inherit opaq))
          ≤ composite_alpha_rank a) := by
  cases preMultiplied <;> cases postMultiplied <;> cases inherit <;> cases opaq <;> decide

/-- C6 (witness): with eInherit and eOpaque supported the mask is non-empty
and eInherit, a supported value, is selected. -/
theorem composite_alpha_priority_witness :
    composite_alpha_mask false false true true ≠ 0 ∧
    composite_alpha (composite_alpha_mask false false true true)
      = CompositeAlphaFlagBitsKHR.eInherit ∧
    composite_alpha_mask false false true true &&&
      (composite_alpha (composite_alpha_mask false false true true)).bit ≠ 0 :=
  ⟨by decide, (composite_alpha_priority false false true true).1,
   ((composite_alpha_priority false false true true).2 (by decide)).1⟩

/-! ## draw and run -/

theorem draw_success (engine : Engine) :
    draw engine Result.eSuccess =
      .ok { engine with _frame_number := (engine._frame_number + 1) % 2 ^ 64 } := by
  simp [draw]

theorem draw_frames_success (n : Nat) (engine : Engine) :
    draw_frames engine (List.replicate n Result.eSuccess) =
      .ok { engine with
            _frame_number := if n = 0 then engine._frame_number
                             else (engine._frame_number + n) % 2 ^ 64 } := by
  induction n generalizing engine with
  | zero => simp [draw_frames]
  | succ n ih =>
    simp only [List.replicate_succ, draw_frames, draw_success, ih]
    by_cases hn : n = 0
    · subst hn
      simp
    · simp only [hn, if_false, Nat.succ_ne_zero]
      congr 2
      rw [Nat.add_mod, Nat.mod_mod, ← Nat.add_mod]
      congr 1
      omega

/-- C7: a draw call whose present result is eSuccess returns with
`_frame_number` one higher than before, modulo 2^64; a draw call with any
other present result throws instead of completing; so n completed draw calls
on a freshly constructed engine leave the counter at n modulo 2^64, which is
n for n below 2^64. -/
theorem draw_frame_number (engine : Engine) (present_result : Result) (n : Nat) :
    (present_result = Result.eSuccess →
      draw engine present_result =
        .ok { engine with _frame_number := (engine._frame_number + 1) % 2 ^ 64 }) ∧
    (present_result ≠ Result.eSuccess →
      ∃ fault, draw engine present_result = .error fault) ∧
    (∃ after, draw_frames Engine.constructed (List.replicate n Result.eSuccess) = .ok after ∧
      after._frame_number = n % 2 ^ 64 ∧ (n < 2 ^ 64 → after._frame_number = n)) := by
  refine ⟨?_, ?_, ?_⟩
  · intro h
    rw [h, draw_success]
  · intro h
    exact ⟨.runtimeError "Problem when drawing", by simp [draw, h]⟩
  · refine ⟨_, draw_frames_success n Engine.constructed, ?_, ?_⟩
    · by_cases hn : n = 0
      · subst hn
        simp [Engine.constructed]
      · simp [hn, Engine.constructed]
    · intro hlt
      by_cases hn : n = 0
      · subst hn
        simp [Engine.constructed]
      · simp only [hn, if_false, Engine.constructed, Nat.zero_add]
        exact Nat.mod_eq_of_lt hlt

/-- C7 (witness): from frame 41 a successful present leads to frame 42, a
suboptimal present throws, and three successful draws on a fresh engine
leave the counter at 3. -/
theorem draw_frame_number_witness :
    draw ⟨true, 41⟩ Result.eSuccess = .ok ⟨true, 42⟩ ∧
    (∃ fault, draw ⟨true, 41⟩ Result.eSuboptimalKHR = .error fault) ∧
    (∃ after, draw_frames Engine.constructed (List.replicate 3 Result.eSuccess) = .ok after ∧
      after._frame_number = 3 % 2 ^ 64 ∧ ((3 : Nat) < 2 ^ 64 → after._frame_number = 3)) :=
  ⟨(draw_frame_number ⟨true, 41⟩ Result.eSuccess 3).1 rfl,
   (draw_frame_number ⟨true, 41⟩ Result.eSuboptimalKHR 3).2.1 (by decide),
   (draw_frame_number ⟨true, 41⟩ Result.eSuccess 3).2.2⟩

theorem run_loop_quit (engine : Engine) (script : List Iteration) :
    run_loop engine true script = { engine := engine, log := [], ending := .returned } := by
  cases script <;> simp [run_loop]

theorem count_quiet_steps (k : Nat) :
    draw_calls (quiet_steps k) = k ∧ quiet_iterations (quiet_steps k) = k ∧
    quit_iterations (quiet_steps k) = 0 := by
  induction k with
  | zero => simp [quiet_steps, draw_calls, quiet_iterations, quit_iterations]
  | succ k ih =>
    obtain ⟨h1, h2, h3⟩ := ih
    simp only [draw_calls, quiet_iterations, quit_iterations] at h1 h2 h3 ⊢
    simp [quiet_steps, iteration_steps, List.count_cons, h1, h2, h3]

theorem run_loop_shape (script : List Iteration) (engine : Engine) :
    ∃ k, ((run_loop engine false script).log = quiet_steps k ∧
          (run_loop engine false script).ending ≠ .returned) ∨
         (run_loop engine false script).log = quiet_steps k ++ iteration_steps true := by
  induction script generalizing engine with
  | nil => exact ⟨0, Or.inl ⟨by simp [run_loop, quiet_steps], by simp [run_loop]⟩⟩
  | cons iteration rest ih =>
    cases hq : poll_events false iteration.events with
    | true =>
      refine ⟨0, Or.inr ?_⟩
      cases hd : draw engine iteration.present_result with
      | error fault => simp [run_loop, hq, hd, quiet_steps, iteration_steps]
      | ok next => simp [run_loop, hq, hd, run_loop_quit, quiet_steps, iteration_steps]
    | false =>
      cases hd : draw engine iteration.present_result with
      | error fault =>
        exact ⟨1, Or.inl ⟨by simp [run_loop, hq, hd, quiet_steps, iteration_steps],
          by simp [run_loop, hq, hd]⟩⟩
      | ok next =>
        obtain ⟨k, hk⟩ := ih next
        refine ⟨k + 1, ?_⟩
        rcases hk with ⟨hlog, hend⟩ | hlog
        · exact Or.inl ⟨by simp [run_loop, hq, hd, quiet_steps, iteration_steps, hlog],
            by simpa [run_loop, hq, hd] using hend⟩
        · exact Or.inr (by simp [run_loop, hq, hd, quiet_steps, iteration_steps, hlog])

theorem poll_events_eq (bQuit : Bool) (events : List Nat) :
    poll_events bQuit events = (bQuit || decide (SDL_QUIT ∈ events)) := by
  induction events generalizing bQuit with
  | nil => simp [poll_events]
  | cons type rest ih =>
    simp only [poll_events, ih]
    by_cases h : type = SDL_QUIT
    · simp [h]
    · have h2 : ¬ SDL_QUIT = type := fun e => h e.symm
      simp [h, h2]

theorem after_draws_succ (k : Nat) (engine : Engine) :
    after_draws k { engine with _frame_number := (engine._frame_number + 1) % 2 ^ 64 }
      = after_draws (k + 1) engine := by
  simp [after_draws, next_frame_number, Function.iterate_succ_apply]

theorem run_loop_quiet_prefix (pre tail : List Iteration) (engine : Engine)
    (hpre : ∀ x ∈ pre, x.quiet) :
    run_loop engine false (pre ++ tail) =
      { engine := (run_loop (after_draws pre.length engine) false tail).engine
        log := quiet_steps pre.length ++ (run_loop (after_draws pre.length engine) false tail).log
        ending := (run_loop (after_draws pre.length engine) false tail).ending } := by
  induction pre generalizing engine with
  | nil => simp [quiet_steps, after_draws]
  | cons it rest ih =>
    have hit := hpre it (List.mem_cons_self it rest)
    have hq : poll_events false it.events = false := by
      rw [poll_events_eq]
      simpa using hit.1
    have hrest := ih { engine with _frame_number := (engine._frame_number + 1) % 2 ^ 64 }
      (fun x hx => hpre x (List.mem_cons_of_mem it hx))
    rw [after_draws_succ] at hrest
    simp only [List.cons_append, run_loop, hq, hit.2, draw_success, List.length_cons,
      quiet_steps, iteration_steps, Bool.false_eq_true, if_false]
    have happ : rest.append tail = rest ++ tail := rfl
    rw [happ, hrest]
    simp

/-- C8 (amended): every iteration of run drains the pending events and then
calls draw exactly once, whether or not a quit event was among them, and the
loop ends after the iteration that drained a quit event. While the queues
hold no quit event and present succeeds, each iteration logs a drain and a
draw and advances the frame counter; the first iteration whose queue holds a
quit event anywhere still draws, then run returns; a failing present ends the
run in that draw call. So the number of draw calls is the number of
iterations, and a run that returns has made exactly one draw call more than
it had quiet iterations, that last draw call coming after the quit event was
observed. -/
theorem run_draws_every_iteration (engine : Engine) (script : List Iteration) :
    ((∀ x ∈ script, x.quiet) →
      run engine script =
        { engine := after_draws script.length engine
          log := quiet_steps script.length
          ending := RunEnd.running }) ∧
    (∀ pre it rest, script = pre ++ it :: rest → (∀ x ∈ pre, x.quiet) →
      (SDL_QUIT ∈ it.events → it.present_result = Result.eSuccess →
        run engine script =
          { engine := after_draws (pre.length + 1) engine
            log := quiet_steps pre.length ++ [Step.drained true, Step.draw_called]
            ending := RunEnd.returned }) ∧
      (it.present_result ≠ Result.eSuccess →
        run engine script =
          { engine := after_draws pre.length engine
            log := quiet_steps pre.length ++
              [Step.drained (decide (SDL_QUIT ∈ it.events)), Step.draw_called]
            ending := RunEnd.fatal (Fault.runtimeError "Problem when drawing") })) ∧
    (∃ k, (run engine script).log = quiet_steps k ∨
          (run engine script).log = quiet_steps k ++ iteration_steps true) ∧
    draw_calls (run engine script).log =
      quiet_iterations (run engine script).log + quit_iterations (run engine script).log ∧
    ((run engine script).ending = RunEnd.returned →
      (∃ k, (run engine script).log =
        quiet_steps k ++ [Step.drained true, Step.draw_called]) ∧
      draw_calls (run engine script).log = quiet_iterations (run engine script).log + 1) := by
  refine ⟨?_, ?_, ?_⟩
  · intro hall
    have h := run_loop_quiet_prefix script [] engine hall
    simp only [List.append_nil] at h
    simp [run, h, run_loop]
  · intro pre it rest hsplit hpre
    subst hsplit
    have h := run_loop_quiet_prefix pre (it :: rest) engine hpre
    constructor
    · intro hquit hok
      have hq : poll_events false it.events = true := by
        rw [poll_events_eq]
        simpa using hquit
      have hd : draw (after_draws pre.length engine) it.present_result
          = .ok (after_draws (pre.length + 1) engine) := by
        rw [hok, draw_success]
        simp [after_draws, next_frame_number, Function.iterate_succ_apply']
      simp [run, h, run_loop, hq, hd, run_loop_quit]
    · intro hbad
      have hd : draw (after_draws pre.length engine) it.present_result
          = .error (Fault.runtimeError "Problem when drawing") := by
        simp [draw, hbad]
      simp [run, h, run_loop, hd, poll_events_eq]
  · obtain ⟨k, hk⟩ := run_loop_shape script engine
    obtain ⟨h1, h2, h3⟩ := count_quiet_steps k
    simp only [draw_calls, quiet_iterations, quit_iterations] at h1 h2 h3
    unfold run
    rcases hk with ⟨hlog, hend⟩ | hlog
    · refine ⟨⟨k, Or.inl hlog⟩, ?_, fun h => absurd h hend⟩
      simp only [draw_calls, quiet_iterations, quit_iterations, hlog, h1, h2, h3]
      omega
    · refine ⟨⟨k, Or.inr hlog⟩, ?_, fun _ => ⟨⟨k, by rw [hlog]; rfl⟩, ?_⟩⟩
      · simp [draw_calls, quiet_iterations, quit_iterations, hlog, iteration_steps,
          List.count_cons, h1, h2, h3]
      · simp [draw_calls, quiet_iterations, hlog, iteration_steps, List.count_cons, h1, h2]

/-- C8 (witness): one quiet iteration, then a queue with a mouse-motion
event followed by a quit event: run drains the whole queue, draws a second
time and returns with frame counter 2; the third iteration is never run. -/
theorem run_draws_every_iteration_witness :
    run Engine.constructed
        [⟨[0x400], Result.eSuccess⟩, ⟨[0x400, SDL_QUIT], Result.eSuccess⟩,
         ⟨[], Result.eSuccess⟩] =
      { engine := { _is_initialized := true, _frame_number := 2 }
        log := [Step.drained false, Step.draw_called, Step.drained true, Step.draw_called]
        ending := RunEnd.returned } :=
  (((run_draws_every_iteration Engine.constructed
      [⟨[0x400], Result.eSuccess⟩, ⟨[0x400, SDL_QUIT], Result.eSuccess⟩,
       ⟨[], Result.eSuccess⟩]).2.1
      [⟨[0x400], Result.eSuccess⟩] ⟨[0x400, SDL_QUIT], Result.eSuccess⟩
      [⟨[], Result.eSuccess⟩] rfl
      (fun x hx => by
        rw [List.mem_singleton] at hx
        subst hx
        exact ⟨by decide, rfl⟩)).1 (by decide) rfl).trans (by decide)

/-- C8 (counterexample): when the first drained queue holds a quit event,
run still calls draw once after observing it: one draw call, no quiet
iteration, and the draw call is logged after the quit. -/
theorem run_draws_after_quit_counterexample :
    (run Engine.constructed [⟨[SDL_QUIT], Result.eSuccess⟩]).log
      = [Step.drained true, Step.draw_called] ∧
    (run Engine.constructed [⟨[SDL_QUIT], Result.eSuccess⟩]).ending = RunEnd.returned ∧
    (run Engine.constructed [⟨[SDL_QUIT], Result.eSuccess⟩]).engine._frame_number = 1 ∧
    draw_calls (run Engine.constructed [⟨[SDL_QUIT], Result.eSuccess⟩]).log = 1 ∧
    quiet_iterations (run Engine.constructed [⟨[SDL_QUIT], Result.eSuccess⟩]).log = 0 ∧
    draw_calls (run Engine.constructed [⟨[SDL_QUIT], Result.eSuccess⟩]).log ≠
      quiet_iterations (run Engine.constructed [⟨[SDL_QUIT], Result.eSuccess⟩]).log :=
  ⟨by decide, by decide, by decide, by decide, by decide, by decide⟩

end VkEngine
